import Mathlib

set_option maxRecDepth 40000
set_option linter.unusedVariables false

/-
Verification development for the sports-betting-beta repository.

We give a shallow embedding of the two core components:
  * the 149-slot NFL feature adapter (src/nfl_feature_adapter.py), and
  * the per-sport refreshing server cache (src/beta_platform_server_cache.py),
plus the older cache-or-mock odds path (src/beta_platform_old.py).

Numeric odds values are modelled as rationals: the adapter performs no
arithmetic on them (it only copies literals and supplied line values into
slots), so exact rationals are a faithful carrier for the float values of
the source.  Python dictionaries with string keys are modelled as
association lists; `dict.get` with a default becomes an option-valued
lookup, `dict[k] = v` replaces the first binding of `k` or appends.
Fallible code (Python exceptions such as `IndexError` and the adapter's
`assert`) is modelled with `Except String`.
-/

namespace Betting

/-- Numeric carrier for odds values and feature slots. -/
abbrev Val : Type := ℚ

/-- One outcome inside a market, mirroring the upstream JSON objects:
`name`, `point` and `price` keys may each be absent. -/
structure Outcome where
  name : Option String
  point : Option Val
  price : Option Val
deriving DecidableEq

/-- One market of a bookmaker: a `key` (such as "spreads", "totals", "h2h")
and a list of outcomes.  The source accesses `m['key']` unconditionally, so
the model carries the key as a mandatory field; `outcomes` may be empty. -/
structure Market where
  key : String
  outcomes : List Outcome
deriving DecidableEq

/-- One bookmaker quote.  The source reads `book.get('markets', [])`, so an
absent markets key is identified with the empty list. -/
structure Bookmaker where
  title : Option String
  markets : List Market
deriving DecidableEq

/-- One upstream game record.  Both the `game_data` and the `odds_data`
arguments of the adapter have this shape; `bookmakers` is `none` when the
key is absent (`dict.get` returns `None`). -/
structure Game where
  home_team : Option String
  away_team : Option String
  commence_time : Option String
  bookmakers : Option (List Bookmaker)
deriving DecidableEq

/-- The FEATURE_NAMES class attribute of NFLFeatureAdapter, transcribed
verbatim from src/nfl_feature_adapter.py. -/
def FEATURE_NAMES : List String := [
  -- Offensive features (20)
  "home_yards_per_game", "away_yards_per_game",
  "home_points_per_game", "away_points_per_game",
  "home_pass_yards_per_game", "away_pass_yards_per_game",
  "home_rush_yards_per_game", "away_rush_yards_per_game",
  "home_third_down_pct", "away_third_down_pct",
  "home_red_zone_pct", "away_red_zone_pct",
  "home_time_of_possession", "away_time_of_possession",
  "home_turnovers_per_game", "away_turnovers_per_game",
  "home_sacks_allowed", "away_sacks_allowed",
  "home_penalties_per_game", "away_penalties_per_game",
  -- Defensive features (comment in source says 22, the list has 20)
  "home_yards_allowed_per_game", "away_yards_allowed_per_game",
  "home_points_allowed_per_game", "away_points_allowed_per_game",
  "home_pass_yards_allowed", "away_pass_yards_allowed",
  "home_rush_yards_allowed", "away_rush_yards_allowed",
  "home_third_down_def_pct", "away_third_down_def_pct",
  "home_red_zone_def_pct", "away_red_zone_def_pct",
  "home_sacks_per_game", "away_sacks_per_game",
  "home_interceptions_per_game", "away_interceptions_per_game",
  "home_forced_fumbles_per_game", "away_forced_fumbles_per_game",
  "home_defensive_tds", "away_defensive_tds",
  -- Recent form (16)
  "home_last_3_wins", "away_last_3_wins",
  "home_last_3_points_for", "away_last_3_points_for",
  "home_last_3_points_against", "away_last_3_points_against",
  "home_momentum_score", "away_momentum_score",
  "home_last_5_ats", "away_last_5_ats",
  "home_last_5_totals", "away_last_5_totals",
  "home_streak", "away_streak",
  "home_rest_advantage", "away_rest_advantage",
  -- QB Stats (20)
  "home_qb_rating", "away_qb_rating",
  "home_qb_completion_pct", "away_qb_completion_pct",
  "home_qb_yards_per_attempt", "away_qb_yards_per_attempt",
  "home_qb_td_int_ratio", "away_qb_td_int_ratio",
  "home_qb_sack_rate", "away_qb_sack_rate",
  "home_qb_qbr", "away_qb_qbr",
  "home_qb_pressure_rate", "away_qb_pressure_rate",
  "home_qb_deep_ball_pct", "away_qb_deep_ball_pct",
  "home_qb_third_down_rating", "away_qb_third_down_rating",
  "home_qb_red_zone_rating", "away_qb_red_zone_rating",
  -- RB Stats (12)
  "home_rb_yards_per_carry", "away_rb_yards_per_carry",
  "home_rb_breakaway_runs", "away_rb_breakaway_runs",
  "home_rb_yards_after_contact", "away_rb_yards_after_contact",
  "home_rb_receiving_yards", "away_rb_receiving_yards",
  "home_rb_total_touches", "away_rb_total_touches",
  "home_rb_fumble_rate", "away_rb_fumble_rate",
  -- WR/TE Stats (6)
  "home_wr_separation", "away_wr_separation",
  "home_wr_drop_rate", "away_wr_drop_rate",
  "home_wr_yards_after_catch", "away_wr_yards_after_catch",
  -- OL/DL Stats (12)
  "home_ol_pass_block_win_rate", "away_ol_pass_block_win_rate",
  "home_ol_run_block_win_rate", "away_ol_run_block_win_rate",
  "home_dl_pass_rush_win_rate", "away_dl_pass_rush_win_rate",
  "home_dl_run_stop_rate", "away_dl_run_stop_rate",
  "home_pocket_time", "away_pocket_time",
  "home_hurry_rate", "away_hurry_rate",
  -- Special teams (8)
  "home_field_goal_pct", "away_field_goal_pct",
  "home_punt_return_avg", "away_punt_return_avg",
  "home_kick_return_avg", "away_kick_return_avg",
  "home_net_punting_avg", "away_net_punting_avg",
  -- Matchup/situational (15)
  "head_to_head_wins_home", "head_to_head_avg_total",
  "division_game", "conference_game",
  "primetime_game", "playoff_implications",
  "home_field_advantage", "altitude_factor",
  "travel_distance", "timezone_change",
  "revenge_game", "lookahead_spot",
  "sandwich_game", "rest_differential",
  "injury_report_impact",
  -- Weather (8)
  "temperature", "wind_speed",
  "precipitation_chance", "humidity",
  "dome_game", "field_condition",
  "weather_impact_passing", "weather_impact_total",
  -- Market/betting (12)
  "opening_spread", "current_spread",
  "spread_movement", "opening_total",
  "current_total", "total_movement",
  "home_moneyline", "away_moneyline",
  "public_bet_pct_spread", "public_bet_pct_total",
  "sharp_money_indicator", "reverse_line_movement"]

/-- The feature count computed in NFLFeatureAdapter.__init__. -/
def feature_count : Nat := FEATURE_NAMES.length

/-- The 137 hard-coded baseline values that extract_features_from_game
appends before the market band, transcribed verbatim in order: offensive
(20), defensive (20), recent form (16), QB (20), RB (12), WR/TE (6),
OL/DL (12), special teams (8), matchup/situational (15), weather (8). -/
def baselineFeatures : List Val := [
  -- Offensive features (20)
  350.5, 340.2, 24.5, 22.3, 245.3, 235.1, 105.2, 105.1, 0.42, 0.39,
  0.55, 0.52, 31.2, 28.8, 1.2, 1.5, 2.1, 2.8, 6.2, 6.8,
  -- Defensive features (20)
  325.8, 345.2, 20.5, 23.2, 220.5, 235.8, 105.3, 109.4, 0.38, 0.41,
  0.48, 0.51, 2.8, 2.2, 0.9, 0.7, 0.6, 0.4, 0.15, 0.10,
  -- Recent form (16)
  2, 1, 75, 65, 62, 71, 0.6, 0.4, 3, 2, 3, 2, 2, -1, 0, 0,
  -- QB Stats (20)
  95.2, 88.5, 0.65, 0.62, 7.5, 7.1, 2.5, 1.8, 0.06, 0.08,
  58.2, 52.1, 0.35, 0.42, 0.12, 0.10, 98.5, 92.1, 102.3, 95.8,
  -- RB Stats (12)
  4.2, 3.9, 0.15, 0.12, 2.8, 2.5, 25.5, 22.1, 18.5, 16.2, 0.015, 0.020,
  -- WR/TE Stats (6)
  2.8, 2.5, 0.05, 0.07, 5.2, 4.8,
  -- OL/DL Stats (12)
  0.68, 0.62, 0.72, 0.68, 0.42, 0.38, 0.35, 0.32, 2.5, 2.3, 0.22, 0.28,
  -- Special teams (8)
  0.85, 0.82, 8.5, 7.2, 22.5, 21.1, 42.5, 40.8,
  -- Matchup/situational (15)
  0.5, 48.5, 0, 0, 0, 0.5, 3.0, 0, 500, 0, 0, 0, 0, 0, 0,
  -- Weather (8)
  72, 5, 0.1, 50, 0, 1.0, 0, 0]

/-- The default market band used when no live odds are supplied (the else
branch of the market section). -/
def defaultMarketBand : List Val :=
  [-3.5, -3.5, 0, 45.5, 45.5, 0, -150, 130, 55, 52, 0, 0]

/-- Reading `spread_market['outcomes'][0].get('point', -3.5)`: an absent
spreads market yields the default, a present one with an empty outcomes
list raises IndexError, otherwise the first outcome's point (or default)
is used. -/
def spreadPoint : Option Market → Except String Val
  | some m =>
    match m.outcomes.head? with
    | some o => .ok (o.point.getD (-3.5))
    | none => .error "IndexError: list index out of range"
  | none => .ok (-3.5)

/-- Reading `total_market['outcomes'][0].get('point', 45.5)`, analogous to
`spreadPoint`. -/
def totalPoint : Option Market → Except String Val
  | some m =>
    match m.outcomes.head? with
    | some o => .ok (o.point.getD (45.5))
    | none => .error "IndexError: list index out of range"
  | none => .ok (45.5)

/-- The market/betting band of extract_features_from_game.  The live branch
is taken exactly when `odds_data` is present and its bookmakers list is
present and nonempty (Python truthiness of `odds_data.get('bookmakers')`). -/
def marketFeatures : Option Game → Except String (List Val)
  | none => .ok defaultMarketBand
  | some od =>
    match od.bookmakers with
    | some (book :: _) =>
      let spread_market := book.markets.find? (fun m => m.key == "spreads")
      let total_market := book.markets.find? (fun m => m.key == "totals")
      let _ml_market := book.markets.find? (fun m => m.key == "h2h")
      match spreadPoint spread_market with
      | .error e => .error e
      | .ok current_spread =>
        match totalPoint total_market with
        | .error e => .error e
        | .ok current_total =>
          .ok [current_spread, current_spread, 0, current_total, current_total, 0,
               -150, 130, 55, 52, 0, 0]
    | _ => .ok defaultMarketBand

/-- The final `assert len(feature_array) == 149` of the adapter: a vector of
any other length aborts construction instead of being returned. -/
def assertLength149 (features : List Val) : Except String (List Val) :=
  if features.length = 149 then .ok features
  else .error ("AssertionError: Expected 149 features, got " ++ toString features.length)

/-- NFLFeatureAdapter.extract_features_from_game: the 137 baseline slots
followed by the market band, then the length assertion.  `game_data` is
never read by the source body. -/
def extract_features_from_game (game_data : Game) (odds_data : Option Game) :
    Except String (List Val) :=
  match marketFeatures odds_data with
  | .error e => .error e
  | .ok market => assertLength149 (baselineFeatures ++ market)

/-- NFLFeatureAdapter.extract_batch_features: the loop calls the single-item
extractor with no odds argument on each game in order, propagating the first
raised exception. -/
def extract_batch_features : List Game → Except String (List (List Val))
  | [] => .ok []
  | g :: gs =>
    match extract_features_from_game g none with
    | .error e => .error e
    | .ok v =>
      match extract_batch_features gs with
      | .error e => .error e
      | .ok vs => .ok (v :: vs)

/-- Association-list lookup modelling `d.get(k)` on a Python string-keyed
dictionary (the first binding wins, as bindings for one key are unique). -/
def dictGet {α : Type} : List (String × α) → String → Option α
  | [], _ => none
  | p :: t, k => if p.1 == k then some p.2 else dictGet t k

/-- Association-list update modelling `d[k] = v`: replaces the first binding
of `k` in place, or appends a new binding at the end (Python dictionaries
preserve insertion order). -/
def dictSet {α : Type} : List (String × α) → String → α → List (String × α)
  | [], k, v => [(k, v)]
  | p :: t, k, v => if p.1 == k then (k, v) :: t else p :: dictSet t k v

theorem dictGet_dictSet {α : Type} (d : List (String × α)) (k k' : String) (v : α) :
    dictGet (dictSet d k v) k' = if k' = k then some v else dictGet d k' := by
  induction d with
  | nil =>
    by_cases h : k' = k
    · subst h; simp [dictSet, dictGet]
    · simp [dictSet, dictGet, beq_iff_eq, h, Ne.symm h]
  | cons p t ih =>
    by_cases hp : p.1 = k
    · by_cases h : k' = k
      · subst h; simp [dictSet, dictGet, hp, beq_iff_eq]
      · simp [dictSet, dictGet, hp, beq_iff_eq, h, Ne.symm h]
    · by_cases h : k' = k
      · subst h; simp [dictSet, dictGet, hp, beq_iff_eq, ih]
      · simp [dictSet, dictGet, hp, beq_iff_eq, ih, h]

/-- One per-sport entry of the server cache: a list of game records and an
optional last-updated timestamp (absent before the first refresh).  Wall
clock instants are modelled as naturals. -/
structure CacheEntry where
  data : List Game
  last_updated : Option Nat
deriving DecidableEq

/-- The module-level SERVER_ODDS_CACHE dictionary as initialised at import
time in src/beta_platform_server_cache.py. -/
def SERVER_ODDS_CACHE : List (String × CacheEntry) :=
  [("nfl", ⟨[], none⟩), ("nba", ⟨[], none⟩),
   ("mlb", ⟨[], none⟩), ("ncaaf", ⟨[], none⟩)]

/-- The sports iterated over by every refresh cycle. -/
def SPORTS : List String := ["nfl", "nba", "mlb", "ncaaf"]

/-- The short-to-long key mapping used by fetch_odds_from_api when building
the upstream URL. -/
def sport_key_mapping : List (String × String) :=
  [("nfl", "americanfootball_nfl"), ("nba", "basketball_nba"),
   ("mlb", "baseball_mlb"), ("ncaaf", "americanfootball_ncaaf")]

/-- The long-to-short key mapping used by get_cached_odds. -/
def sport_map : List (String × String) :=
  [("americanfootball_nfl", "nfl"), ("basketball_nba", "nba"),
   ("baseball_mlb", "mlb"), ("americanfootball_ncaaf", "ncaaf")]

/-- Outcome of one upstream HTTP request, supplied to the refresh cycle as
an oracle (the network is outside the embedding). -/
inductive FetchResult where
  | success (games : List Game)
  | apiError (status : Nat)
  | exception (msg : String)
deriving DecidableEq

/-- fetch_odds_from_api maps the HTTP outcome to a game list: the parsed
body on status 200, and the empty list on any non-200 status or any raised
exception (both are caught inside the function and logged). -/
def fetch_odds_from_api : FetchResult → List Game
  | .success games => games
  | .apiError _ => []
  | .exception _ => []

/-- One iteration of the while-loop body of update_server_cache: for each
sport in order, fetch and then unconditionally overwrite that sport's cache
entry with the fetched data and a fresh `datetime.now()` timestamp.
`response` gives each sport's HTTP outcome for this cycle and `now` the
clock reading at each sport's update. -/
def update_server_cache_cycle (cache : List (String × CacheEntry))
    (response : String → FetchResult) (now : String → Nat) :
    List (String × CacheEntry) :=
  SPORTS.foldl
    (fun c sport => dictSet c sport ⟨fetch_odds_from_api (response sport), some (now sport)⟩)
    cache

/-- get_cached_odds of the server-cache variant: normalise the sport key
through sport_map, then read the cache with empty-dict and empty-list
defaults; no network access and no exception on any input. -/
def get_cached_odds (cache : List (String × CacheEntry)) (sport : String) :
    List Game :=
  let cache_key := (dictGet sport_map sport).getD sport
  match dictGet cache cache_key with
  | some entry => entry.data
  | none => []

namespace OldPlatform

/-- Which branch of the old platform's get_cached_odds produced the returned
game list: a fresh cache hit, a live API response, or generate_mock_odds. -/
inductive Source where
  | cache
  | api
  | mock
deriving DecidableEq

/-- The two module-level dictionaries of beta_platform_old.py that back its
odds cache. -/
structure OldState where
  odds_cache : List (String × List Game)
  cache_timestamp : List (String × Nat)
deriving DecidableEq

/-- The 30-minute TTL of the old platform's cache, in minutes. -/
def CACHE_TTL_MINUTES : Nat := 30

/-- The LIVE/DEMO badge rendered by the old platform's dashboard:
`'LIVE' if ODDS_API_KEY != 'demo-key' else 'DEMO'`. -/
def mode_flag (apiKey : String) : String :=
  if apiKey ≠ "demo-key" then "LIVE" else "DEMO"

/-- get_cached_odds of beta_platform_old.py, instrumented with the source of
the returned data.  Branch order follows the source: a fresh cached entry is
returned first; otherwise, when the configured key is truthy and not the
'demo-key' placeholder, a 200 response is returned and cached, while any
non-200 status or exception falls through; every remaining path returns
generate_mock_odds (whose random output is the `mock_games` oracle).
A cached entry without a matching timestamp would raise KeyError. -/
def get_cached_odds (st : OldState) (apiKey : String) (now : Nat) (sport : String)
    (response : FetchResult) (mock_games : List Game) :
    Except String (List Game × OldState × Source) :=
  let cache_key := "odds_" ++ sport
  let tryApiThenMock : Except String (List Game × OldState × Source) :=
    if apiKey ≠ "" ∧ apiKey ≠ "demo-key" then
      match response with
      | .success data =>
        .ok (data,
             ⟨dictSet st.odds_cache cache_key data,
              dictSet st.cache_timestamp cache_key now⟩,
             .api)
      | _ => .ok (mock_games, st, .mock)
    else .ok (mock_games, st, .mock)
  match dictGet st.odds_cache cache_key with
  | some cached =>
    match dictGet st.cache_timestamp cache_key with
    | some ts =>
      if now - ts < CACHE_TTL_MINUTES then .ok (cached, st, .cache)
      else tryApiThenMock
    | none => .error "KeyError: cache_timestamp"
  | none => tryApiThenMock

end OldPlatform

/-- Concrete sample game with live odds, taken from test_adapter in the
source: first bookmaker quotes spread -2.5 and total 48.5. -/
def spreadsOutcomeA : Outcome := ⟨some "Kansas City Chiefs", some (-2.5), some (-110)⟩

/-- First outcome of the sample totals market. -/
def totalsOutcomeA : Outcome := ⟨some "Over", some 48.5, some (-110)⟩

/-- Sample spreads market. -/
def spreadsMarketA : Market := ⟨"spreads", [spreadsOutcomeA]⟩

/-- Sample totals market. -/
def totalsMarketA : Market := ⟨"totals", [totalsOutcomeA]⟩

/-- Sample bookmaker quoting the two sample markets. -/
def bookA : Bookmaker := ⟨some "DraftKings", [spreadsMarketA, totalsMarketA]⟩

/-- Sample game A: carries live odds through bookA. -/
def gameA : Game :=
  ⟨some "Kansas City Chiefs", some "Buffalo Bills",
   some "2025-01-20T20:00:00Z", some [bookA]⟩

/-- Sample game B: no bookmaker data at all. -/
def gameB : Game := ⟨some "Dallas Cowboys", some "Philadelphia Eagles", none, none⟩

theorem baselineFeatures_length : baselineFeatures.length = 137 := rfl

theorem defaultMarketBand_length : defaultMarketBand.length = 12 := rfl

theorem assertLength149_of_length (l : List Val) (h : l.length = 149) :
    assertLength149 l = .ok l := by
  simp [assertLength149, h]

theorem assertLength149_ok_inv (l v : List Val) (h : assertLength149 l = .ok v) :
    v = l ∧ l.length = 149 := by
  unfold assertLength149 at h
  split at h
  · exact ⟨(Except.ok.injEq _ _).mp h |>.symm, by assumption⟩
  · cases h

theorem extract_ok_shape (gd : Game) (od : Option Game) (v : List Val)
    (h : extract_features_from_game gd od = .ok v) :
    ∃ m, marketFeatures od = .ok m ∧ v = baselineFeatures ++ m := by
  unfold extract_features_from_game at h
  cases hm : marketFeatures od with
  | error e => rw [hm] at h; cases h
  | ok m =>
    rw [hm] at h
    exact ⟨m, rfl, (assertLength149_ok_inv _ _ h).1⟩

/-- C1: every feature vector the adapter returns has length exactly 149
(the FEATURE_NAMES contract of `__init__` holds, every successful result of
extract_features_from_game has 149 entries, and the final assertion turns
any other length into a raised AssertionError instead of a returned
vector). -/
theorem C1_length_contract :
    feature_count = 149
    ∧ (∀ (gd : Game) (od : Option Game) (v : List Val),
        extract_features_from_game gd od = Except.ok v → v.length = 149)
    ∧ (∀ l : List Val, l.length ≠ 149 →
        assertLength149 l =
          Except.error ("AssertionError: Expected 149 features, got " ++ toString l.length)) := by
  refine ⟨rfl, ?_, ?_⟩
  · intro gd od v h
    unfold extract_features_from_game at h
    cases hm : marketFeatures od with
    | error e => rw [hm] at h; cases h
    | ok m =>
      rw [hm] at h
      obtain ⟨hv, hl⟩ := assertLength149_ok_inv _ _ h
      rw [hv]; exact hl
  · intro l h
    simp [assertLength149, h]

/-- C1 witness: the contract instantiated at game B with no odds, and the
assertion raising on the empty list. -/
theorem C1_length_contract_witness :
    extract_features_from_game gameB none
      = Except.ok (baselineFeatures ++ defaultMarketBand)
    ∧ (baselineFeatures ++ defaultMarketBand).length = 149
    ∧ ([] : List Val).length ≠ 149
    ∧ assertLength149 []
        = Except.error ("AssertionError: Expected 149 features, got "
            ++ toString ([] : List Val).length) :=
  ⟨rfl, C1_length_contract.2.1 gameB none _ rfl, by decide,
   C1_length_contract.2.2 [] (by decide)⟩

/-- C9: the adapter's output is independent of the game_data argument (the
source body never reads it), and every successfully returned vector starts
with the same 137 hard-coded baseline slots. -/
theorem C9_output_independent_of_game_data :
    (∀ (g1 g2 : Game) (od : Option Game),
        extract_features_from_game g1 od = extract_features_from_game g2 od)
    ∧ (∀ (gd : Game) (od : Option Game) (v : List Val),
        extract_features_from_game gd od = Except.ok v →
        v.take 137 = baselineFeatures) := by
  constructor
  · intro _ _ _
    rfl
  · intro gd od v h
    obtain ⟨m, _, hv⟩ := extract_ok_shape gd od v h
    rw [hv, ← baselineFeatures_length, List.take_left]

/-- C9 witness: two different games produce the same vector, whose first
137 slots are the baseline constants. -/
theorem C9_witness :
    extract_features_from_game gameA none = extract_features_from_game gameB none
    ∧ (baselineFeatures ++ defaultMarketBand).take 137 = baselineFeatures :=
  ⟨C9_output_independent_of_game_data.1 gameA gameB none,
   C9_output_independent_of_game_data.2 gameB none _ rfl⟩

/-- C6: the batch extractor returns one row per input game, in input order,
each row equal to the single-item extractor's result on the corresponding
game with no odds argument (which is the same default vector for every
game, so no row depends on any other input). -/
theorem C6_batch_matches_single (games : List Game) :
    extract_batch_features games
      = Except.ok (games.map (fun _ => baselineFeatures ++ defaultMarketBand))
    ∧ (∀ g : Game, extract_features_from_game g none
        = Except.ok (baselineFeatures ++ defaultMarketBand))
    ∧ (games.map (fun _ => baselineFeatures ++ defaultMarketBand)).length
        = games.length := by
  refine ⟨?_, fun _ => rfl, by simp⟩
  induction games with
  | nil => rfl
  | cons g gs ih =>
    have hg : extract_features_from_game g none
        = Except.ok (baselineFeatures ++ defaultMarketBand) := rfl
    simp [extract_batch_features, hg, ih]

/-- C3: when the first bookmaker of the odds argument carries a spreads
market whose first outcome has point s and a totals market whose first
outcome has point t, the market band of the output is
[s, s, 0, t, t, 0, -150, 130, 55, 52, 0, 0]; with no odds argument it is
the all-default band [-3.5, -3.5, 0, 45.5, 45.5, 0, -150, 130, 55, 52, 0, 0]. -/
theorem C3_market_band_roundtrip (gd od : Game) (book : Bookmaker)
    (rest : List Bookmaker) (ms mt : Market) (os ot : Outcome) (s t : Val)
    (hb : od.bookmakers = some (book :: rest))
    (hms : book.markets.find? (fun m => m.key == "spreads") = some ms)
    (hos : ms.outcomes.head? = some os)
    (hps : os.point = some s)
    (hmt : book.markets.find? (fun m => m.key == "totals") = some mt)
    (hot : mt.outcomes.head? = some ot)
    (hpt : ot.point = some t) :
    extract_features_from_game gd (some od)
      = Except.ok (baselineFeatures ++ [s, s, 0, t, t, 0, -150, 130, 55, 52, 0, 0])
    ∧ extract_features_from_game gd none
      = Except.ok (baselineFeatures ++ [-3.5, -3.5, 0, 45.5, 45.5, 0, -150, 130, 55, 52, 0, 0]) := by
  constructor
  · simp only [extract_features_from_game, marketFeatures, hb, hms, hmt,
      spreadPoint, totalPoint, hos, hot, hps, hpt, Option.getD_some]
    exact assertLength149_of_length _ (by simp [List.length_append, baselineFeatures_length, defaultMarketBand_length])
  · rfl

/-- C3 witness: the sample game from the source's test (spread -2.5, total
48.5) round-trips into the market band, and the no-odds call yields the
defaults. -/
theorem C3_witness :
    extract_features_from_game gameB (some gameA)
      = Except.ok (baselineFeatures ++ [-2.5, -2.5, 0, 48.5, 48.5, 0, -150, 130, 55, 52, 0, 0])
    ∧ extract_features_from_game gameB none
      = Except.ok (baselineFeatures ++ [-3.5, -3.5, 0, 45.5, 45.5, 0, -150, 130, 55, 52, 0, 0]) :=
  C3_market_band_roundtrip gameB gameA bookA [] spreadsMarketA totalsMarketA
    spreadsOutcomeA totalsOutcomeA (-2.5) 48.5 rfl rfl rfl rfl rfl rfl rfl

/-- Malformed odds record: the first bookmaker carries a spreads market
whose outcomes list is empty, so `spread_market['outcomes'][0]` raises. -/
def emptySpreadBook : Bookmaker := ⟨none, [⟨"spreads", []⟩]⟩

/-- Game wrapping emptySpreadBook as its only bookmaker. -/
def gameEmptySpread : Game := ⟨none, none, none, some [emptySpreadBook]⟩

/-- Game whose bookmakers key holds an empty list. -/
def gameEmptyBooks : Game := ⟨none, none, none, some []⟩

/-- Bookmaker with no markets at all. -/
def bareBook : Bookmaker := ⟨none, []⟩

/-- Game whose only bookmaker has no markets. -/
def gameBareBook : Game := ⟨none, none, none, some [bareBook]⟩

/-- C5 counterexample: a snapshot whose first bookmaker has a spreads
market with an empty outcomes list makes extract_features_from_game raise
an IndexError — an exception other than the 149-length contract violation
escapes the adapter, so the claim as stated is false. -/
theorem C5_counterexample :
    extract_features_from_game gameB (some gameEmptySpread)
      = Except.error "IndexError: list index out of range" := rfl

/-- C5 amended: an absent or empty bookmakers list, or a first bookmaker
with an empty markets list, degrades to the documented default vector
without raising; but a spreads market present with an empty outcomes list
raises an IndexError that escapes the adapter. -/
theorem C5_amended_default_degradation :
    (∀ gd : Game, extract_features_from_game gd none
        = Except.ok (baselineFeatures ++ defaultMarketBand))
    ∧ (∀ gd od : Game, od.bookmakers = none →
        extract_features_from_game gd (some od)
          = Except.ok (baselineFeatures ++ defaultMarketBand))
    ∧ (∀ gd od : Game, od.bookmakers = some [] →
        extract_features_from_game gd (some od)
          = Except.ok (baselineFeatures ++ defaultMarketBand))
    ∧ (∀ (gd od : Game) (b : Bookmaker) (r : List Bookmaker),
        od.bookmakers = some (b :: r) → b.markets = [] →
        extract_features_from_game gd (some od)
          = Except.ok (baselineFeatures ++ defaultMarketBand))
    ∧ (∀ (gd od : Game) (b : Bookmaker) (r : List Bookmaker) (m : Market),
        od.bookmakers = some (b :: r) →
        b.markets.find? (fun mk => mk.key == "spreads") = some m →
        m.outcomes = [] →
        extract_features_from_game gd (some od)
          = Except.error "IndexError: list index out of range") := by
  refine ⟨fun _ => rfl, ?_, ?_, ?_, ?_⟩
  · intro gd od h
    simp only [extract_features_from_game, marketFeatures, h]
    exact assertLength149_of_length _ (by simp [List.length_append, baselineFeatures_length, defaultMarketBand_length])
  · intro gd od h
    simp only [extract_features_from_game, marketFeatures, h]
    exact assertLength149_of_length _ (by simp [List.length_append, baselineFeatures_length, defaultMarketBand_length])
  · intro gd od b r hb hm
    simp only [extract_features_from_game, marketFeatures, hb, hm, List.find?_nil,
      spreadPoint, totalPoint]
    exact assertLength149_of_length _ (by simp [List.length_append, baselineFeatures_length, defaultMarketBand_length])
  · intro gd od b r m hb hfind hout
    simp only [extract_features_from_game, marketFeatures, hb, hfind, spreadPoint,
      hout, List.head?_nil]

/-- C5 witness: the degradation cases of the amended claim instantiated on
concrete malformed snapshots, and the IndexError case on the empty-outcomes
spreads market. -/
theorem C5_witness :
    extract_features_from_game gameA none
      = Except.ok (baselineFeatures ++ defaultMarketBand)
    ∧ extract_features_from_game gameA (some gameB)
      = Except.ok (baselineFeatures ++ defaultMarketBand)
    ∧ extract_features_from_game gameA (some gameEmptyBooks)
      = Except.ok (baselineFeatures ++ defaultMarketBand)
    ∧ extract_features_from_game gameA (some gameBareBook)
      = Except.ok (baselineFeatures ++ defaultMarketBand)
    ∧ extract_features_from_game gameA (some gameEmptySpread)
      = Except.error "IndexError: list index out of range" :=
  ⟨C5_amended_default_degradation.1 gameA,
   C5_amended_default_degradation.2.1 gameA gameB rfl,
   C5_amended_default_degradation.2.2.1 gameA gameEmptyBooks rfl,
   C5_amended_default_degradation.2.2.2.1 gameA gameBareBook bareBook [] rfl rfl,
   C5_amended_default_degradation.2.2.2.2 gameA gameEmptySpread emptySpreadBook []
     ⟨"spreads", []⟩ rfl rfl rfl⟩

theorem dictGet_mem {α : Type} (d : List (String × α)) (k : String) (v : α)
    (h : dictGet d k = some v) : ∃ p ∈ d, p.2 = v := by
  induction d with
  | nil => cases h
  | cons p t ih =>
    unfold dictGet at h
    split at h
    · exact ⟨p, List.mem_cons_self p t, by injection h⟩
    · obtain ⟨q, hq, hv⟩ := ih h
      exact ⟨q, List.mem_cons_of_mem _ hq, hv⟩

theorem dictGet_eq_none {α : Type} (d : List (String × α)) (k : String)
    (h : ∀ p ∈ d, p.1 ≠ k) : dictGet d k = none := by
  induction d with
  | nil => rfl
  | cons p t ih =>
    have hp := h p (List.mem_cons_self p t)
    simp only [dictGet, beq_iff_eq, hp, if_false]
    exact ih fun q hq => h q (List.mem_cons_of_mem _ hq)

theorem init_entry_empty (k : String) (e : CacheEntry)
    (h : dictGet SERVER_ODDS_CACHE k = some e) : e = ⟨[], none⟩ := by
  obtain ⟨p, hp, hv⟩ := dictGet_mem _ _ _ h
  subst hv
  simp only [SERVER_ODDS_CACHE, List.mem_cons, List.not_mem_nil, or_false] at hp
  rcases hp with rfl | rfl | rfl | rfl <;> rfl

/-- C4: the cache read operation is a total function (so it can neither
block on the network nor raise), and on the initial, pre-first-refresh
cache it returns the empty game list for every sport string. -/
theorem C4_get_total_and_empty_before_refresh :
    ∀ sport : String, get_cached_odds SERVER_ODDS_CACHE sport = [] := by
  intro sport
  unfold get_cached_odds
  cases h : dictGet SERVER_ODDS_CACHE ((dictGet sport_map sport).getD sport) with
  | none => simp [h]
  | some e =>
    simp only [h]
    rw [init_entry_empty _ _ h]

/-- C10: the cache read maps each upstream long-form key to the same entry
as the short sport key, and any string that is neither a tracked key nor a
known alias reads as the empty list (never an error), for every cache state
whose keys are the tracked sports. -/
theorem C10_alias_and_unknown_keys (cache : List (String × CacheEntry)) (s : String)
    (hkeys : ∀ p ∈ cache, p.1 ∈ SPORTS) :
    get_cached_odds cache "americanfootball_nfl" = get_cached_odds cache "nfl"
    ∧ get_cached_odds cache "basketball_nba" = get_cached_odds cache "nba"
    ∧ get_cached_odds cache "baseball_mlb" = get_cached_odds cache "mlb"
    ∧ get_cached_odds cache "americanfootball_ncaaf" = get_cached_odds cache "ncaaf"
    ∧ (s ∉ SPORTS → dictGet sport_map s = none → get_cached_odds cache s = []) := by
  refine ⟨rfl, rfl, rfl, rfl, fun hs hm => ?_⟩
  unfold get_cached_odds
  have hnone : dictGet cache s = none :=
    dictGet_eq_none _ _ fun p hp hc => hs (hc ▸ hkeys p hp)
  simp [hm, hnone]

/-- C10 witness: alias and unknown-key behaviour on the initial cache, with
the untracked key "soccer_epl". -/
theorem C10_witness :
    get_cached_odds SERVER_ODDS_CACHE "americanfootball_nfl"
      = get_cached_odds SERVER_ODDS_CACHE "nfl"
    ∧ get_cached_odds SERVER_ODDS_CACHE "soccer_epl" = [] := by
  have h := C10_alias_and_unknown_keys SERVER_ODDS_CACHE "soccer_epl" (by decide)
  exact ⟨h.1, h.2.2.2.2 (by decide) rfl⟩

theorem dictGet_update_cycle (cache : List (String × CacheEntry))
    (response : String → FetchResult) (now : String → Nat) (s : String)
    (hs : s ∈ SPORTS) :
    dictGet (update_server_cache_cycle cache response now) s
      = some ⟨fetch_odds_from_api (response s), some (now s)⟩ := by
  simp only [SPORTS, List.mem_cons, List.not_mem_nil, or_false] at hs
  rcases hs with rfl | rfl | rfl | rfl <;>
    simp [update_server_cache_cycle, SPORTS, dictGet_dictSet]

/-- Cache state before the refresh cycles studied in the counterexample and
witness theorems: the nfl entry holds one game fetched at time 100. -/
def cacheBefore : List (String × CacheEntry) :=
  [("nfl", ⟨[gameB], some 100⟩), ("nba", ⟨[], none⟩),
   ("mlb", ⟨[], none⟩), ("ncaaf", ⟨[], none⟩)]

/-- C2 counterexample: starting from a cache holding one nfl game, a cycle
whose nfl fetch raises a timeout leaves the nfl entry with an empty game
list — the previous data is NOT retained, so the claim is false on the
code. -/
theorem C2_counterexample :
    get_cached_odds cacheBefore "nfl" = [gameB]
    ∧ get_cached_odds
        (update_server_cache_cycle cacheBefore
          (fun _ => FetchResult.exception "ConnectTimeout") (fun _ => 200)) "nfl" = []
    ∧ ([gameB] : List Game) ≠ [] :=
  ⟨rfl, rfl, List.cons_ne_nil _ _⟩

/-- C2 amended: after a cycle in which the fetch for a tracked sport fails
or returns zero games (both surface as an empty fetched list), that sport's
entry is unconditionally replaced by an empty entry carrying a fresh
timestamp — previous data is lost, not retained. -/
theorem C2_amended_failed_fetch_clears (cache : List (String × CacheEntry))
    (response : String → FetchResult) (now : String → Nat) (s : String)
    (hs : s ∈ SPORTS)
    (hfail : fetch_odds_from_api (response s) = []) :
    dictGet (update_server_cache_cycle cache response now) s
      = some ⟨[], some (now s)⟩ := by
  rw [dictGet_update_cycle cache response now s hs, hfail]

/-- C2 witness: the amended claim instantiated on the concrete failing
cycle of the counterexample. -/
theorem C2_witness :
    ("nfl" : String) ∈ SPORTS
    ∧ fetch_odds_from_api (FetchResult.exception "ConnectTimeout") = []
    ∧ dictGet (update_server_cache_cycle cacheBefore
        (fun _ => FetchResult.exception "ConnectTimeout") (fun _ => 200)) "nfl"
      = some ⟨[], some 200⟩ :=
  ⟨by decide, rfl,
   C2_amended_failed_fetch_clears cacheBefore _ _ "nfl" (by decide) rfl⟩

/-- C7: a successful refresh cycle stamps the tracked sport's new entry
with the cycle's clock reading, which is strictly greater than the replaced
entry's timestamp whenever the clock has advanced past it (datetime.now()
read at a strictly later real time, the cycles being separated by sleeps). -/
theorem C7_timestamp_strictly_increases (cache : List (String × CacheEntry))
    (response : String → FetchResult) (now : String → Nat) (s : String)
    (e : CacheEntry) (t_old : Nat) (games : List Game)
    (hs : s ∈ SPORTS)
    (hsucc : response s = FetchResult.success games)
    (hold : dictGet cache s = some e)
    (ht : e.last_updated = some t_old)
    (hclk : t_old < now s) :
    dictGet (update_server_cache_cycle cache response now) s
      = some ⟨fetch_odds_from_api (response s), some (now s)⟩
    ∧ t_old < now s :=
  ⟨dictGet_update_cycle cache response now s hs, hclk⟩

/-- C7 witness: a successful cycle at clock 200 over a cache whose nfl
entry was stamped 100. -/
theorem C7_witness :
    dictGet (update_server_cache_cycle cacheBefore
        (fun _ => FetchResult.success [gameA]) (fun _ => 200)) "nfl"
      = some ⟨[gameA], some 200⟩
    ∧ 100 < 200 :=
  C7_timestamp_strictly_increases cacheBefore
    (fun _ => FetchResult.success [gameA]) (fun _ => 200) "nfl"
    ⟨[gameB], some 100⟩ 100 [gameA] (by decide) rfl rfl rfl (by decide)

/-- C8 counterexample: with a real (non-empty, non-placeholder) API key
configured, an empty cache and a failed (non-200) upstream fetch, the old
platform returns the fabricated mock games, and the dashboard's mode flag
still reads LIVE — so fabricated data is substituted despite a real key
and is not distinguished by the flag; the claim is false on the code. -/
theorem C8_counterexample :
    OldPlatform.get_cached_odds ⟨[], []⟩ "a1b2c3key" 0 "americanfootball_nfl"
        (FetchResult.apiError 500) [gameA]
      = Except.ok ([gameA], ⟨[], []⟩, OldPlatform.Source.mock)
    ∧ OldPlatform.mode_flag "a1b2c3key" = "LIVE" :=
  ⟨rfl, rfl⟩

/-- C8 amended: with no fresh cache entry, fabricated mock data is returned
exactly when the configured key is absent or the 'demo-key' placeholder, OR
the upstream fetch does not return HTTP 200 — a real key does not prevent
the mock fallback on fetch failure, and the LIVE/DEMO flag depends only on
the key, not on the data's origin. -/
theorem C8_amended_mock_fallback (st : OldPlatform.OldState) (apiKey : String)
    (now : Nat) (sport : String) (response : FetchResult) (mock_games : List Game)
    (hnc : dictGet st.odds_cache ("odds_" ++ sport) = none) :
    OldPlatform.get_cached_odds st apiKey now sport response mock_games
        = Except.ok (mock_games, st, OldPlatform.Source.mock)
      ↔ (¬(apiKey ≠ "" ∧ apiKey ≠ "demo-key")
          ∨ ∀ d, response ≠ FetchResult.success d) := by
  unfold OldPlatform.get_cached_odds
  simp only [hnc]
  by_cases hk : apiKey ≠ "" ∧ apiKey ≠ "demo-key"
  · cases response with
    | success d =>
      simp only [hk, if_true, if_pos hk]
      constructor
      · intro h
        exfalso
        injection h with h'
        exact OldPlatform.Source.noConfusion (congrArg (fun p => p.2.2) h')
      · rintro (h | h)
        · exact absurd hk h
        · exact absurd rfl (h d)
    | apiError code => simp [hk]
    | exception msg => simp [hk]
  · simp [hk]

/-- C8 witness: the amended characterisation instantiated with the
placeholder key and a 404 fetch — the mock games come back. -/
theorem C8_witness :
    OldPlatform.get_cached_odds ⟨[], []⟩ "demo-key" 0 "nfl"
        (FetchResult.apiError 404) [gameB]
      = Except.ok ([gameB], ⟨[], []⟩, OldPlatform.Source.mock) :=
  (C8_amended_mock_fallback ⟨[], []⟩ "demo-key" 0 "nfl"
      (FetchResult.apiError 404) [gameB] rfl).mpr
    (Or.inr fun d h => FetchResult.noConfusion h)

end Betting
